import Mathlib

/-!
Verification of the RAG pipeline of this repository against its specification.

The development shallowly embeds the core Python modules:
 * app/utils/document_processor.py   (chunking, cleaning, validation)
 * app/core/engines/vector_engine.py (retrieval formatting and ranking)
 * app/core/engines/chat_engine.py   (orchestration, confidence, fallback)
 * app/core/cost_tracker.py          (cost records, summaries)
 * app/utils/token_counter.py        (token estimation)

Python strings are modelled as lists of characters, Python floats as
rationals (exact arithmetic; the places where double rounding could in
principle diverge are noted at the definitions), and SQL tables as lists of
records.  External collaborators (the vector store, the OpenAI client) are
modelled as function parameters or as an explicit result value, so that the
logic of THIS repository is the only thing the definitions encode.
-/

set_option maxRecDepth 10000

namespace RagSpec

/-! ## Python string primitives -/

/-- Python strings, modelled as lists of characters. -/
abbrev Str := List Char

/-- Conversion from Lean string literals. -/
def lit (s : String) : Str := s.data

/-- The characters Python `str.strip()` and the regex class `\s` treat as
whitespace (ASCII range). -/
def py_isspace (c : Char) : Bool :=
  c = ' ' || c = '\t' || c = '\n' || c = '\r' || c = '\x0b' || c = '\x0c'

/-- Python `str.strip()`. -/
def py_strip (s : Str) : Str :=
  ((s.dropWhile py_isspace).reverse.dropWhile py_isspace).reverse

/-- Python slice `s[a:b]` for nonnegative bounds (clamping is automatic). -/
def py_slice (s : Str) (a b : Nat) : Str := (s.drop a).take (b - a)

def is_ascii_alpha (c : Char) : Bool := ('a' ≤ c && c ≤ 'z') || ('A' ≤ c && c ≤ 'Z')

def is_ascii_digit (c : Char) : Bool := '0' ≤ c && c ≤ '9'

/-- Regex `\w` on ASCII text. -/
def is_word_char (c : Char) : Bool := is_ascii_alpha c || is_ascii_digit c || c = '_'

/-- Helper for Python `str.split()` (split on whitespace runs, drop empties);
the first argument accumulates the current word in reverse. -/
def split_ws_aux : Str → Str → List Str
  | acc, [] => if acc = [] then [] else [acc.reverse]
  | acc, c :: rest =>
    if py_isspace c then
      if acc = [] then split_ws_aux [] rest else acc.reverse :: split_ws_aux [] rest
    else split_ws_aux (c :: acc) rest

/-- Python `str.split()` with no argument. -/
def py_split_ws (s : Str) : List Str := split_ws_aux [] s

/-- Helper for Python `str.split('\n')` (keeps empty segments). -/
def split_nl_aux : Str → Str → List Str
  | acc, [] => [acc.reverse]
  | acc, c :: rest =>
    if c = '\n' then acc.reverse :: split_nl_aux [] rest else split_nl_aux (c :: acc) rest

/-- Python `str.split('\n')`. -/
def py_split_nl (s : Str) : List Str := split_nl_aux [] s

/-- Python `'\n'.join(parts)`. -/
def join_nl : List Str → Str
  | [] => []
  | [l] => l
  | l :: ls => l ++ '\n' :: join_nl ls

/-- Python `str.lower()` (ASCII behaviour). -/
def py_lower (s : Str) : Str := s.map Char.toLower

/-- Index of the first occurrence of a character, if any. -/
def find_idx_char : Str → Char → Option Nat
  | [], _ => none
  | c :: rest, ch => if c = ch then some 0 else (find_idx_char rest ch).map (· + 1)

/-- Does `s` start with `p`? -/
def starts_with : Str → Str → Bool
  | _, [] => true
  | [], _ :: _ => false
  | c :: cs, d :: ds => c = d && starts_with cs ds

/-- Python `hay.find(needle)` returning `none` for -1 (leftmost match index). -/
def find_sub : Str → Str → Option Nat
  | [], needle => if needle = [] then some 0 else none
  | c :: rest, needle =>
    if starts_with (c :: rest) needle then some 0
    else (find_sub rest needle).map (· + 1)

/-- Python `s.rfind(ch)` returning `none` for -1 (index of last occurrence). -/
def rfind_char (s : Str) (ch : Char) : Option Nat :=
  (s.foldl (fun (st : Nat × Option Nat) c =>
    (st.1 + 1, if c = ch then some st.1 else st.2)) ((0 : Nat), (none : Option Nat))).2

/-- Helper for Python `str.title()`: the flag records whether the previous
character was a letter. -/
def title_aux : Bool → Str → Str
  | _, [] => []
  | prev, c :: rest =>
    if is_ascii_alpha c then
      (if prev then c.toLower else c.toUpper) :: title_aux true rest
    else c :: title_aux false rest

/-- Python `str.title()` (ASCII behaviour). -/
def py_title (s : Str) : Str := title_aux false s

/-- Python `s.replace(a, b)` for single characters. -/
def replace_char (s : Str) (a b : Char) : Str := s.map (fun c => if c = a then b else c)

/-! ## Chunker — app/utils/document_processor.py -/

/-- `ChunkConfig` dataclass with its default values. -/
structure ChunkConfig where
  chunk_size : Nat := 1000
  chunk_overlap : Nat := 200
  min_chunk_size : Nat := 100
  max_chunk_size : Nat := 2000
deriving DecidableEq

/-- The default `ChunkConfig()`. -/
def defaultConfig : ChunkConfig := {}

/-- `_validate_chunk_config`: true iff no `ValueError` is raised. -/
def validate_chunk_config (cfg : ChunkConfig) : Bool :=
  100 ≤ cfg.chunk_size && cfg.chunk_overlap < cfg.chunk_size
    && cfg.min_chunk_size ≤ cfg.chunk_size

/-- Regex substitution `re.sub(r'\\[a-zA-Z]+(\{[^}]*\})?', '', s)`, as a fuelled
left-to-right scanner; fuel `s.length` suffices because every step consumes at
least one character. -/
def strip_latex_f : Nat → Str → Str
  | 0, s => s
  | _, [] => []
  | fuel + 1, c :: rest =>
    if c = '\\' then
      if (rest.takeWhile is_ascii_alpha).isEmpty then c :: strip_latex_f fuel rest
      else
        match rest.dropWhile is_ascii_alpha with
        | '\x7b' :: r2 =>
          match find_idx_char r2 '\x7d' with
          | some j => strip_latex_f fuel (r2.drop (j + 1))
          | none => strip_latex_f fuel ('\x7b' :: r2)
        | after => strip_latex_f fuel after
    else c :: strip_latex_f fuel rest

def strip_latex (s : Str) : Str := strip_latex_f s.length s

/-- Regex substitution `re.sub(r'\$[^$]*\$', '', s)`, fuelled as above. -/
def strip_dollar_f : Nat → Str → Str
  | 0, s => s
  | _, [] => []
  | fuel + 1, c :: rest =>
    if c = '$' then
      match find_idx_char rest '$' with
      | some j => strip_dollar_f fuel (rest.drop (j + 1))
      | none => c :: strip_dollar_f fuel rest
    else c :: strip_dollar_f fuel rest

def strip_dollar (s : Str) : Str := strip_dollar_f s.length s

/-- Character class of `re.sub(r'[^\w\s\.,!?;:()\[\]{}"\'-]', '', s)`:
characters that are kept. -/
def keep_readable (c : Char) : Bool :=
  is_word_char c || py_isspace c || c = '.' || c = ',' || c = '!' || c = '?'
    || c = ';' || c = ':' || c = '(' || c = ')' || c = '[' || c = ']'
    || c = '\x7b' || c = '\x7d' || c = '"' || c = '\x27' || c = '-'

/-- Regex substitution `re.sub(r'\s+', ' ', s)` (whitespace runs collapse to a
single space), fuelled. -/
def collapse_ws_f : Nat → Str → Str
  | 0, s => s
  | _, [] => []
  | fuel + 1, c :: rest =>
    if py_isspace c then ' ' :: collapse_ws_f fuel (rest.dropWhile py_isspace)
    else c :: collapse_ws_f fuel rest

def collapse_ws (s : Str) : Str := collapse_ws_f s.length s

/-- Regex substitution `re.sub(r'\n{3,}', '\n\n', s)`, fuelled. -/
def collapse_nl3_f : Nat → Str → Str
  | 0, s => s
  | _, [] => []
  | fuel + 1, c :: rest =>
    if c = '\n' then
      if 2 ≤ (rest.takeWhile (fun d => d = '\n')).length then
        '\n' :: '\n' :: collapse_nl3_f fuel (rest.dropWhile (fun d => d = '\n'))
      else
        ('\n' :: rest.takeWhile (fun d => d = '\n'))
          ++ collapse_nl3_f fuel (rest.dropWhile (fun d => d = '\n'))
    else c :: collapse_nl3_f fuel rest

def collapse_nl3 (s : Str) : Str := collapse_nl3_f s.length s

/-- The per-line condition of `_clean_text_content`: the line has characters
and its ratio of ASCII letters exceeds 0.3.  `english / total > 0.3` over
floats agrees with the exact comparison `3 * total < 10 * english` for all
realistic line lengths (the two sides can only disagree within one double ulp
of 0.3, which requires astronomically long lines). -/
def english_line_ok (line : Str) : Bool :=
  0 < line.length && 3 * line.length < 10 * (line.filter is_ascii_alpha).length

/-- `_clean_text_content`: LaTeX removal, math removal, non-ASCII removal,
readable-character filter, whitespace normalisation, then the per-line
alphabetic-ratio filter.  Note that `collapse_ws` replaces every newline by a
space before the text is split on `'\n'`. -/
def clean_text_content (text : Str) : Str :=
  if text = [] then text
  else
    let c1 := strip_latex text
    let c2 := strip_dollar c1
    let c3 := c2.filter (fun c => c.toNat ≤ 127)
    let c4 := c3.filter keep_readable
    let c5 := py_strip (collapse_ws c4)
    let kept := ((py_split_nl c5).map py_strip).filter
      (fun line => line ≠ [] && english_line_ok line)
    join_nl kept

def is_term (c : Char) : Bool := c = '.' || c = '!' || c = '?'

/-- Regex split `re.split(r'(?<=[.!?])\s+', text)`: cut after a sentence
terminator that is followed by whitespace; fuelled on the remaining text. -/
def split_sentences_f : Nat → Str → Str → List Str
  | 0, acc, s => [acc.reverse ++ s]
  | _, acc, [] => [acc.reverse]
  | fuel + 1, acc, c :: rest =>
    if is_term c && (match rest with | d :: _ => py_isspace d | [] => false) then
      (c :: acc).reverse :: split_sentences_f fuel [] (rest.dropWhile py_isspace)
    else split_sentences_f fuel (c :: acc) rest

def split_sentences (s : Str) : List Str := split_sentences_f s.length [] s

/-- The sentence-packing loop of `_sentence_based_chunking`; the second
argument is `current_chunk`. -/
def sbc_loop (cfg : ChunkConfig) : List Str → Str → List Str
  | [], current =>
    if current ≠ [] ∧ cfg.min_chunk_size ≤ current.length then [py_strip current] else []
  | s :: ss, current =>
    if current.length + s.length + 1 ≤ cfg.chunk_size then
      sbc_loop cfg ss (if current = [] then s else current ++ ' ' :: s)
    else
      if current ≠ [] ∧ cfg.min_chunk_size ≤ current.length then
        py_strip current :: sbc_loop cfg ss s
      else sbc_loop cfg ss s

/-- `_sentence_based_chunking`. -/
def sentence_based_chunking (cfg : ChunkConfig) (text : Str) : List Str :=
  let sentences := ((split_sentences text).map py_strip).filter (· ≠ [])
  let chunks := sbc_loop cfg sentences []
  if chunks = [] ∧ py_strip text ≠ [] then [py_strip text] else chunks

/-- `_validate_chunks`: nonempty, no chunk below `min_chunk_size`, and an
average length of at least `1.5 × min_chunk_size` (the float comparison
`avg_size < min * 1.5` is the exact comparison `2 * sum < 3 * min * count`). -/
def validate_chunks (cfg : ChunkConfig) (chunks : List Str) : Bool :=
  if chunks = [] then false
  else if chunks.any (fun c => c.length < cfg.min_chunk_size) then false
  else if 2 * (chunks.map List.length).sum < 3 * cfg.min_chunk_size * chunks.length then false
  else true

/-- The scan `for i in range(hi, hi - count, -1)` of `_find_break_point`:
return the first index (counting down) whose character satisfies `p`. -/
def scan_down (s : Str) (p : Char → Bool) : Nat → Nat → Option Nat
  | _, 0 => none
  | i, k + 1 => if p (s.getD i ' ') then some i else scan_down s p (i - 1) k

/-- `_find_break_point(text, start, e)`: nearest sentence terminator scanning
backward from `e - 1` down to `start + 1`, else nearest whitespace, else `e`. -/
def find_break_point (s : Str) (start e : Nat) : Nat :=
  match scan_down s is_term (e - 1) (e - 1 - start) with
  | some i => i + 1
  | none =>
    match scan_down s py_isspace (e - 1) (e - 1 - start) with
    | some i => i + 1
    | none => e

/-- The window end used by one iteration of `_fallback_chunking`. -/
def fb_end (cfg : ChunkConfig) (s : Str) (start : Nat) : Nat :=
  let e0 := start + cfg.chunk_size
  if e0 < s.length then
    let bp := find_break_point s start e0
    if start + cfg.chunk_size / 2 < bp then bp else e0
  else e0

/-- The start-position update of `_fallback_chunking`:
`start = max(start + 1, end - overlap)` (truncated subtraction agrees with
Python here because `start + 1 ≥ 1` dominates any negative value). -/
def fallback_next (cfg : ChunkConfig) (s : Str) (start : Nat) : Nat :=
  max (start + 1) (fb_end cfg s start - cfg.chunk_overlap)

/-- The `while start < len(text)` loop of `_fallback_chunking`, with explicit
fuel; `fallback_progress_and_termination` proves that any fuel of at least
`s.length - start` computes the loop's true result.  The Python locals
`chunk = text[start:end].strip()` and the `len(chunk) >= min_chunk_size`
guard are inlined. -/
def fallback_loop (cfg : ChunkConfig) (s : Str) : Nat → Nat → List Str
  | 0, _ => []
  | fuel + 1, start =>
    if start < s.length then
      if py_strip (py_slice s start (fb_end cfg s start)) ≠ [] ∧
          cfg.min_chunk_size ≤ (py_strip (py_slice s start (fb_end cfg s start))).length then
        py_strip (py_slice s start (fb_end cfg s start))
          :: fallback_loop cfg s fuel (fallback_next cfg s start)
      else fallback_loop cfg s fuel (fallback_next cfg s start)
    else []

/-- `_fallback_chunking`. -/
def fallback_chunking (cfg : ChunkConfig) (s : Str) : List Str :=
  fallback_loop cfg s s.length 0

/-- `_create_chunks`: short-input branch, cleaning, sentence-aware chunking,
validation gate, character-window fallback. -/
def create_chunks (cfg : ChunkConfig) (text : Str) : List Str :=
  if text = [] ∨ py_strip text = [] then []
  else if (py_strip text).length < cfg.min_chunk_size then [py_strip text]
  else
    if validate_chunks cfg
        (sentence_based_chunking cfg (py_strip (collapse_nl3 (clean_text_content text)))) then
      sentence_based_chunking cfg (py_strip (collapse_nl3 (clean_text_content text)))
    else fallback_chunking cfg (py_strip (collapse_nl3 (clean_text_content text)))

/-! ## Retriever — app/core/engines/vector_engine.py

The ChromaDB collection is external: `VectorEngine.search` is embedded as a
function of the neighbor list the collection returns for the query embedding
(the `store` parameter, indexed by the requested `n_results`).  Metadata
fields are `Option`s because `metadata.get` supplies defaults. -/

/-- One neighbor as returned by `collection.query` (id, document, metadata,
distance). -/
structure Neighbor where
  nid : Str
  document : Str
  title : Option Str
  category : Option Str
  file : Option Str
  filename : Option Str
  distance : ℚ
deriving DecidableEq

/-- One formatted retrieval hit as built by `VectorEngine.search`.  The
dictionary keys `id/text/score/title/snippet/category` and the metadata keys
`title/category/file/enhanced_title` are flattened into fields (`search`
stores the same defaulted `title`/`category` at both levels). -/
structure Hit where
  hid : Str
  text : Str
  title : Str
  category : Str
  file : Str
  enhanced_title : Str
  score : ℚ
  snippet : Str
deriving DecidableEq

def abstract_markers : List Str := [lit ("abstract"), lit ("summary"), lit ("overview")]

def intro_markers : List Str := [lit ("introduction"), lit ("background"), lit ("overview")]

/-- The `for marker in markers` loops of `_extract_research_snippet`: first
marker contained in the lowercased content wins; text after the marker is
capped at `cap` characters, pulled back to the last period when it lies past
`lpmin`. -/
def try_markers (content : Str) (markers : List Str) (cap lpmin : Nat) : Option Str :=
  match markers with
  | [] => none
  | m :: rest =>
    match find_sub (py_lower content) m with
    | some i =>
      let after := content.drop (i + m.length)
      let e0 := min cap after.length
      let e :=
        if e0 < after.length then
          match rfind_char (after.take e0) '.' with
          | some lp => if lpmin < lp then lp + 1 else e0
          | none => e0
        else e0
      some (py_strip (after.take e))
    | none => try_markers content rest cap lpmin

/-- `_extract_research_snippet`. -/
def extract_research_snippet (content : Str) : Str :=
  if content = [] then []
  else
    match try_markers content abstract_markers 400 200 with
    | some s => s
    | none =>
      match try_markers content intro_markers 300 150 with
      | some s => s
      | none =>
        if 200 < content.length then
          match rfind_char (content.take 200) '.' with
          | some lp =>
            if 100 < lp then py_strip (content.take (lp + 1)) else py_strip (content.take 200)
          | none => py_strip (content.take 200)
        else py_strip content

/-- `_enhance_title`. -/
def enhance_title (title category : Str) : Str :=
  if title = [] ∨ title = lit ("Untitled Document") then
    lit ("Document from ") ++ py_title category
  else
    let t1 := replace_char (replace_char title '-' ' ') '_' ' '
    let t2 :=
      if py_lower category = lit ("research") ∧ find_sub (py_lower t1) (lit ("research")) = none then
        t1 ++ lit (" (Research Paper)")
      else if py_lower category = lit ("technical") ∧ find_sub (py_lower t1) (lit ("technical")) = none then
        t1 ++ lit (" (Technical)")
      else if py_lower category = lit ("handbooks") ∧ find_sub (py_lower t1) (lit ("handbook")) = none then
        t1 ++ lit (" (Handbook)")
      else t1
    py_title t2

/-- The per-neighbor formatting step of `VectorEngine.search`.  `score = 1 -
distance`; `metadata.get` defaults are applied; the `file`/`filename`
fallback follows Python truthiness (`metadata.get("file") or
metadata.get("filename", "Unknown File")`). -/
def format_neighbor (n : Neighbor) : Hit :=
  let title := n.title.getD (lit ("Untitled Document"))
  let category := n.category.getD (lit ("Unknown Category"))
  let file_name :=
    match n.file with
    | some f => if f = [] then n.filename.getD (lit ("Unknown File")) else f
    | none => n.filename.getD (lit ("Unknown File"))
  let content := n.document
  let snippet :=
    if py_lower category = lit ("research") then extract_research_snippet content
    else if 150 < content.length then content.take 150 ++ lit ("...") else content
  { hid := n.nid, text := content, title := title, category := category,
    file := file_name, enhanced_title := enhance_title title category,
    score := 1 - n.distance, snippet := snippet }

/-- Descending order on scores, the key of
`formatted_results.sort(key=lambda x: x["score"], reverse=True)`. -/
def score_ge (a b : Hit) : Prop := b.score ≤ a.score

instance : DecidableRel score_ge := fun a b => inferInstanceAs (Decidable (b.score ≤ a.score))

instance : IsTotal Hit score_ge := ⟨fun a b => le_total b.score a.score⟩

instance : IsTrans Hit score_ge := ⟨fun _ _ _ hab hbc => le_trans hbc hab⟩

/-- `VectorEngine.search`: over-fetch `min(2 × limit, 20)` neighbors, format
each, sort by score descending (Python `list.sort` is stable, as is
`List.insertionSort`), truncate to `limit`. -/
def search (store : Nat → List Neighbor) (limit : Nat) : List Hit :=
  let search_limit := min (limit * 2) 20
  let results := store search_limit
  let formatted := results.map format_neighbor
  (formatted.insertionSort score_ge).take limit

/-! ## Token counter — app/utils/token_counter.py

`tiktoken` encoders are external; they are abstracted as the `enc`
parameter.  The model used by `ChatEngine`, `gpt-3.5-turbo-0125`, has no
entry in `MODEL_ENCODINGS`, so every count it triggers goes through the
word-based approximation. -/

def MODEL_ENCODINGS : List Str :=
  [lit ("gpt-4"), lit ("gpt-4-turbo"), lit ("gpt-3.5-turbo"),
   lit ("deepseek/deepseek-chat"), lit ("deepseek/deepseek-coder"),
   lit ("claude-3-opus"), lit ("claude-3-sonnet"), lit ("claude-3-haiku"),
   lit ("gemini-pro"), lit ("gemini-pro-vision")]

/-- `_approximate_token_count`: `int(words * 1.33)`.  The float product
`words * 1.33` truncates to `words * 133 / 100` for every realistic word
count (the double closest to 1.33 exceeds it by ≈7·10⁻¹⁷). -/
def approximate_token_count (text : Str) : Nat := (py_split_ws text).length * 133 / 100

structure ChatMessage where
  role : Str
  content : Str
deriving DecidableEq

/-- `TokenCounter.count_tokens`. -/
def count_tokens (enc : Str → Nat) (text model : Str) : Nat :=
  if model ∈ MODEL_ENCODINGS then enc text else approximate_token_count text

/-- `_approximate_message_tokens`: content approximation plus 8 per message. -/
def approximate_message_tokens (msgs : List ChatMessage) : Nat :=
  (msgs.map (fun m => approximate_token_count m.content + 8)).sum

/-- `TokenCounter.count_message_tokens`. -/
def count_message_tokens (enc : Str → Nat) (msgs : List ChatMessage) (model : Str) : Nat :=
  if model ∈ MODEL_ENCODINGS then
    (msgs.map (fun m => enc m.content + enc m.role)).sum + msgs.length * 4
  else approximate_message_tokens msgs

/-! ## Cost calculator — app/core/cost_tracker.py (CostCalculator) -/

/-- The static `PRICING` table: provider → model → (input, output) dollars
per 1000 tokens. -/
def PRICING : List (Str × List (Str × (ℚ × ℚ))) :=
  [(lit ("openai"),
    [(lit ("gpt-4"), (3/100, 6/100)),
     (lit ("gpt-4-turbo"), (1/100, 3/100)),
     (lit ("gpt-3.5-turbo"), (15/10000, 2/1000))]),
   (lit ("deepseek"),
    [(lit ("deepseek/deepseek-chat"), (14/100000, 28/100000)),
     (lit ("deepseek/deepseek-coder"), (14/100000, 28/100000))]),
   (lit ("anthropic"),
    [(lit ("claude-3-opus"), (15/1000, 75/1000)),
     (lit ("claude-3-sonnet"), (3/1000, 15/1000)),
     (lit ("claude-3-haiku"), (25/100000, 125/100000))]),
   (lit ("google"),
    [(lit ("gemini-pro"), (5/10000, 15/10000)),
     (lit ("gemini-pro-vision"), (5/10000, 15/10000))]),
   (lit ("custom"),
    [(lit ("default"), (1/1000, 2/1000))])]

/-- `_get_pricing`: provider-specific entry, then any provider with that
model (dict iteration order is insertion order), then the fixed default
`PRICING["custom"]["default"]`. -/
def get_pricing (model provider : Str) : ℚ × ℚ :=
  match (PRICING.lookup provider).bind (fun t => t.lookup model) with
  | some p => p
  | none =>
    match PRICING.findSome? (fun pm => pm.2.lookup model) with
    | some p => p
    | none => (1/1000, 2/1000)

/-- Python `round(x, 6)` (round half to even), on exact rationals. -/
def round_half_even (q : ℚ) : ℤ :=
  let f := ⌊q⌋
  let r := q - f
  if r < 1/2 then f
  else if 1/2 < r then f + 1
  else if f % 2 = 0 then f else f + 1

def py_round6 (q : ℚ) : ℚ := (round_half_even (q * 1000000) : ℚ) / 1000000

/-- `CostCalculator.calculate_cost`: `(input_cost, output_cost, total_cost)`,
each `tokens/1000 × rate` rounded to 6 decimals (the total is rounded from
the unrounded sum). -/
def calculate_cost (model : Str) (input_tokens output_tokens : Nat) (provider : Str) :
    ℚ × ℚ × ℚ :=
  let p := get_pricing model provider
  let input_cost := (input_tokens : ℚ) / 1000 * p.1
  let output_cost := (output_tokens : ℚ) / 1000 * p.2
  (py_round6 input_cost, py_round6 output_cost, py_round6 (input_cost + output_cost))

/-! ## Cost tracker — app/core/cost_tracker.py (CostTracker)

The SQLite `costs` table is modelled as a list of `CostBreakdown` records;
timestamps are abstracted to calendar-day indices (`DATE(timestamp)` in the
SQL only ever compares and groups by day). -/

/-- The `CostBreakdown` dataclass / `costs` table row. -/
structure CostBreakdown where
  request_id : Str
  timestamp : Nat
  model : Str
  provider : Str
  input_tokens : Nat
  output_tokens : Nat
  total_tokens : Nat
  input_cost : ℚ
  output_cost : ℚ
  total_cost : ℚ
  user_query : Str
  response_length : Nat
  processing_time : ℚ
  user_id : Option Str
  session_id : Option Str
  tags : Option (List Str)
deriving DecidableEq

/-- `track_request`: `INSERT OR REPLACE` keyed on the `request_id` primary
key — the conflicting row is deleted and the new row inserted. -/
def track_request (db : List CostBreakdown) (r : CostBreakdown) : List CostBreakdown :=
  db.filter (fun x => x.request_id ≠ r.request_id) ++ [r]

/-- The `WHERE DATE(timestamp) >= start_date` window with
`start_date = (now - timedelta(days)).date()`. -/
def window_records (db : List CostBreakdown) (days now : Nat) : List CostBreakdown :=
  db.filter (fun r => now - days ≤ r.timestamp)

/-- One row of the `GROUP BY DATE(timestamp)` query. -/
structure DailyRow where
  date : Nat
  requests : Nat
  tokens : Nat
  cost : ℚ
  avg_time : ℚ
deriving DecidableEq

/-- The `total_summary` sub-dictionary; the `or 0` coalescing of SQL `NULL`
aggregates is the empty-sum/empty-average convention here. -/
structure TotalSummary where
  total_requests : Nat
  total_tokens : Nat
  total_cost : ℚ
  avg_processing_time : ℚ
deriving DecidableEq

/-- The dictionary returned by `get_cost_summary`. -/
structure CostSummary where
  period_days : Nat
  start_date : Nat
  daily_breakdown : List DailyRow
  total_summary : TotalSummary
deriving DecidableEq

/-- The exact key set of the dictionary literal that `get_cost_summary`
returns (transliterated from the source; the payload carries no other key,
in particular no "no data" flag). -/
def cost_summary_keys : List Str :=
  [lit ("period_days"), lit ("start_date"), lit ("daily_breakdown"), lit ("total_summary")]

instance : DecidableRel (fun a b : Nat => b ≤ a) := fun a b => inferInstanceAs (Decidable (b ≤ a))

/-- SQL `AVG`, with `NULL or 0.0` coalescing for the empty window. -/
def avg_or_zero (xs : List ℚ) : ℚ := if xs.length = 0 then 0 else xs.sum / xs.length

/-- The distinct days of the window, `ORDER BY date DESC`. -/
def distinct_days_desc (db : List CostBreakdown) : List Nat :=
  ((db.map (fun r => r.timestamp)).dedup).insertionSort (fun a b => b ≤ a)

/-- `CostTracker.get_cost_summary`.  Modelled totally: on an empty window the
SQL aggregates are `NULL` and the code coalesces them with `or 0`/`or 0.0`,
so the function never raises. -/
def get_cost_summary (db : List CostBreakdown) (days now : Nat) : CostSummary :=
  let win := window_records db days now
  let daily := (distinct_days_desc win).map (fun d =>
    let g := win.filter (fun r => r.timestamp = d)
    { date := d
      requests := g.length
      tokens := (g.map (fun r => r.total_tokens)).sum
      cost := (g.map (fun r => r.total_cost)).sum
      avg_time := avg_or_zero (g.map (fun r => r.processing_time)) : DailyRow })
  { period_days := days
    start_date := now - days
    daily_breakdown := daily
    total_summary :=
      { total_requests := win.length
        total_tokens := (win.map (fun r => r.total_tokens)).sum
        total_cost := (win.map (fun r => r.total_cost)).sum
        avg_processing_time := avg_or_zero (win.map (fun r => r.processing_time)) } }

/-! ## Orchestrator — app/core/engines/chat_engine.py

The OpenAI client call is external: its outcome is the `gen` parameter
(`Except.error e` models a raised exception with message `e`).  The request
id, wall-clock day and processing time are parameters (`uuid.uuid4()`,
`datetime.now()`, `time.time()` are environment effects).  The single
`CostTracker.track_request` side effect is reified in the `tracked` field of
the result. -/

def chat_model : Str := lit ("gpt-3.5-turbo-0125")

def chat_provider : Str := lit ("openai")

/-- The `self.system_prompt` literal (a triple-quoted string whose
continuation lines carry the 8-space source indentation). -/
def system_prompt : Str :=
  lit ("You are the LegendaryCorp AI Assistant, a helpful and knowledgeable assistant that answers questions based on the provided context from LegendaryCorp\x27s knowledge base.\n\n        Your knowledge base includes various categories of documents that will be provided in context. When answering questions:\n\n        1. **Be accurate and cite specific information** from the provided context\n        2. **If information isn\x27t in the context**, say so clearly and suggest what might be available\n        3. **Be friendly and professional** in your responses\n        4. **Format responses clearly** with bullet points or numbered lists when appropriate\n        5. **Keep responses concise but comprehensive**\n        6. **Reference specific documents** when possible to build trust\n\n        Context from relevant documents will be provided with each query. Use this context to provide accurate, helpful answers.")

/-- The `seen_titles` deduplication loop of `get_response` (the code reads
`doc["metadata"].get("title", "Document")`; `search` always stores a title,
so the default never fires and the field access is `Hit.title`). -/
def dedup_aux : List Str → List Hit → List Hit
  | _, [] => []
  | seen, d :: ds =>
    if d.title ∈ seen then dedup_aux seen ds
    else d :: dedup_aux (d.title :: seen) ds

def dedup_by_title (docs : List Hit) : List Hit := dedup_aux [] docs

/-- Python `f"{x:.1f}"` on an exact rational (round half to even at one
decimal). -/
def format_fixed1 (q : ℚ) : Str :=
  let n := round_half_even (q * 10)
  let sign : Str := if n < 0 then lit ("-") else []
  sign ++ lit (toString (n.natAbs / 10)) ++ lit (".") ++ lit (toString (n.natAbs % 10))

/-- The seven `context_parts` entries appended for document number `i`. -/
def context_entry (i : Nat) (doc : Hit) : List Str :=
  let content :=
    if py_lower doc.category = lit ("research") then
      if 800 < doc.text.length then doc.text.take 800 ++ lit ("... [truncated for brevity]")
      else doc.text
    else
      if 500 < doc.text.length then doc.text.take 500 ++ lit ("... [truncated for brevity]")
      else doc.text
  [lit ("📄 DOCUMENT ") ++ lit (toString i) ++ lit (": ") ++ doc.title,
   lit ("📁 Category: ") ++ doc.category,
   lit ("📂 File: ") ++ doc.file,
   lit ("🎯 Relevance Score: ") ++ format_fixed1 (doc.score * 100) ++ lit ("%"),
   List.replicate 50 '─',
   lit ("📝 Content:\n") ++ content,
   []]

/-- `_create_context`. -/
def create_context (documents : List Hit) : Str :=
  if documents = [] then lit ("No relevant documents found.")
  else
    let entries := (documents.enum.map (fun p => context_entry (p.1 + 1) p.2)).flatten
    join_nl ([lit ("=== RELEVANT KNOWLEDGE BASE DOCUMENTS ===\n")] ++ entries
      ++ [lit ("=== END OF CONTEXT ===")])

/-- `_create_augmented_prompt`. -/
def create_augmented_prompt (query context : Str) : Str :=
  lit ("Based on the following context from LegendaryCorp\x27s knowledge base, please answer the user\x27s question.\n\n        ") ++ context
    ++ lit ("\n\n        USER QUESTION: ") ++ query
    ++ lit ("\n\n        INSTRUCTIONS:\n        1. **Answer based on the provided context** - use specific information from the documents\n        2. **Cite sources** - mention which documents you\x27re referencing\n        3. **Be comprehensive** - provide detailed answers when the context supports it\n        4. **If information is missing** - clearly state what\x27s not available and suggest what might be found in other categories\n        5. **Format appropriately** - use bullet points only for lists, not for every line\n        6. **Be helpful** - even if the exact answer isn\x27t in context, try to provide related information\n        7. **Do not mention document names or include sources sections**\n\n        Please provide a helpful and accurate answer based on the context provided.")

/-- `_calculate_confidence`: 0.0 on an empty list, else the mean of the first
three scores. -/
def calculate_confidence (documents : List Hit) : ℚ :=
  if documents = [] then 0
  else
    let scores := (documents.take 3).map Hit.score
    scores.sum / scores.length

/-- Truncate `t` to `cap` characters and pull back to the last period when it
lies past `lpmin` — the content trimming of `_create_fallback_response`. -/
def truncate_at_period (t : Str) (cap lpmin : Nat) : Str :=
  if cap < t.length then
    let t1 := t.take cap
    match rfind_char t1 '.' with
    | some lp => if lpmin < lp then t1.take (lp + 1) else t1
    | none => t1
  else t

/-- `_create_fallback_response` (the `query` parameter is unused in the
source as well). -/
def create_fallback_response (query : Str) (documents : List Hit) : Str :=
  match documents with
  | [] =>
    lit ("I couldn\x27t find any relevant information about your question in the LegendaryCorp knowledge base. Please try rephrasing your question or check if the information might be in a different category.")
  | top :: _ =>
    let body :=
      if py_lower top.category = lit ("research") then
        lit ("📝 **Abstract/Content:**\n") ++ truncate_at_period top.text 600 300 ++ lit ("\n\n")
      else
        lit ("📝 **Content:**\n") ++ truncate_at_period top.text 400 200 ++ lit ("\n\n")
    let related :=
      if 1 < documents.length then
        lit ("🔍 **Related Information:**\n")
          ++ (((documents.drop 1).take 2).map (fun d =>
               lit ("• **") ++ d.title ++ lit ("** (") ++ d.category ++ lit ("): ")
                 ++ d.text.take 120 ++ lit ("...\n"))).flatten
      else []
    lit ("Based on the LegendaryCorp knowledge base, here\x27s the relevant information:\n\n")
      ++ lit ("📄 **") ++ top.title ++ lit ("** (Category: ") ++ top.category ++ lit (")\n\n")
      ++ body ++ related
      ++ lit ("\n💡 **Note**: This is a fallback response. For more detailed answers, please try again when the AI service is available.")

/-- The `usage` attribute of an OpenAI response; each token field is optional
because the code reads them with `getattr(usage, field, 0)`. -/
structure Usage where
  completion_tokens : Option Nat
  output_tokens : Option Nat
  total_tokens : Option Nat
deriving DecidableEq

/-- The generation result consumed by `get_response` on success. -/
structure GenResponse where
  content : Str
  usage : Option Usage
deriving DecidableEq

/-- Python `a or b` on token counts (0 is falsy). -/
def py_or_nat (a b : Nat) : Nat := if a ≠ 0 then a else b

/-- The `cost_info` sub-dictionary of the response; `estimated_cost` is the
`(input_cost, output_cost, total_cost)` triple. -/
structure CostInfo where
  request_id : Str
  input_tokens : Nat
  output_tokens : Nat
  total_tokens : Nat
  estimated_cost : ℚ × ℚ × ℚ
deriving DecidableEq

/-- The dictionary returned by `get_response`; `error` is `some message`
exactly when the source dictionary carries the "error" key, and `tracked`
lists the cost records emitted through `CostTracker.track_request`. -/
structure ChatResult where
  answer : Str
  sources : List Hit
  confidence : ℚ
  error : Option Str
  cost_info : CostInfo
  tracked : List CostBreakdown
deriving DecidableEq

/-- The messages `get_response` sends to the Generator. -/
def response_messages (query : Str) (unique_docs : List Hit) : List ChatMessage :=
  [{ role := lit ("system"), content := system_prompt },
   { role := lit ("user"),
     content := create_augmented_prompt query (create_context unique_docs) }]

/-- The `CostBreakdown` built by `_track_request_cost`. -/
def mk_cost_breakdown (request_id : Str) (now : Nat)
    (input_tokens output_tokens total_tokens : Nat) (user_query answer : Str)
    (ptime : ℚ) (user_id session_id : Option Str) : CostBreakdown :=
  let costs := calculate_cost chat_model input_tokens output_tokens chat_provider
  { request_id := request_id
    timestamp := now
    model := chat_model
    provider := chat_provider
    input_tokens := input_tokens
    output_tokens := output_tokens
    total_tokens := total_tokens
    input_cost := costs.1
    output_cost := costs.2.1
    total_cost := costs.2.2
    user_query := user_query.take 500
    response_length := answer.length
    processing_time := ptime
    user_id := user_id
    session_id := session_id
    tags := some [lit ("rag"), lit ("chat")] }

/-- `ChatEngine.get_response`: retrieval with fan-out 5, title
deduplication, prompt assembly, then either the success branch or — when the
client call raised — the fallback branch.  The function is total: an
`Except.error` from the Generator is consumed, never re-raised. -/
def get_response (enc : Str → Nat) (store : Nat → List Neighbor)
    (gen : Except Str GenResponse) (user_query : Str) (request_id : Str)
    (now : Nat) (ptime : ℚ) (user_id session_id : Option Str) : ChatResult :=
  let relevant_docs := search store 5
  let unique_docs := dedup_by_title relevant_docs
  let messages := response_messages user_query unique_docs
  let input_tokens := count_message_tokens enc messages chat_model
  match gen with
  | Except.ok resp =>
    let answer := resp.content
    let output_tokens :=
      match resp.usage with
      | some u => py_or_nat (u.completion_tokens.getD 0) (u.output_tokens.getD 0)
      | none => 0
    let total_tokens :=
      match resp.usage with
      | some u => py_or_nat (u.total_tokens.getD 0) (input_tokens + output_tokens)
      | none => input_tokens
    let confidence := calculate_confidence unique_docs
    let record := mk_cost_breakdown request_id now input_tokens output_tokens total_tokens
      user_query answer ptime user_id session_id
    { answer := answer
      sources := unique_docs
      confidence := confidence
      error := none
      cost_info :=
        { request_id := request_id
          input_tokens := input_tokens
          output_tokens := output_tokens
          total_tokens := total_tokens
          estimated_cost := calculate_cost chat_model input_tokens output_tokens chat_provider }
      tracked := [record] }
  | Except.error e =>
    let estimated_tokens := count_tokens enc user_query chat_model
    let record := mk_cost_breakdown request_id now estimated_tokens 0 estimated_tokens
      user_query (lit ("FAILED")) ptime user_id session_id
    { answer := create_fallback_response user_query unique_docs
      sources := unique_docs
      confidence := 1/2
      error := some e
      cost_info :=
        { request_id := request_id
          input_tokens := estimated_tokens
          output_tokens := 0
          total_tokens := estimated_tokens
          estimated_cost := calculate_cost chat_model estimated_tokens 0 chat_provider }
      tracked := [record] }

/-! ## Concrete fixtures used by witnesses and counterexamples -/

/-- First stored chunk titled "Pet Policy" (distance 0.1, score 0.9). -/
def pet1 : Neighbor :=
  { nid := lit ("c1"), document := lit ("Cats are allowed in the office."),
    title := some (lit ("Pet Policy")), category := some (lit ("policies")),
    file := some (lit ("pets.md")), filename := none, distance := 1/10 }

/-- Second stored chunk titled "Pet Policy" (distance 0.2, score 0.8). -/
def pet2 : Neighbor :=
  { nid := lit ("c2"), document := lit ("Dogs must be registered at the front desk."),
    title := some (lit ("Pet Policy")), category := some (lit ("policies")),
    file := some (lit ("pets.md")), filename := none, distance := 2/10 }

/-- A store holding two chunks that share the title "Pet Policy" at distinct
distances (the spec example of §8). -/
def petStore : Nat → List Neighbor := fun _ => [pet1, pet2]

/-- A chunking configuration accepted by `_validate_chunk_config`
(`chunk_size ≥ 100`, `overlap < chunk_size`, `min_chunk_size ≤ chunk_size`)
whose `max_chunk_size` is close to `chunk_size`. -/
def smallConfig : ChunkConfig :=
  { chunk_size := 100, chunk_overlap := 0, min_chunk_size := 10, max_chunk_size := 120 }

/-- A neighbor at cosine distance exactly 1 (an orthogonal embedding): its
formatted hit has score 0. -/
def orthoNeighbor : Neighbor :=
  { nid := lit ("c3"), document := lit ("Quarterly report tables."),
    title := some (lit ("Quarterly Report")), category := some (lit ("reports")),
    file := some (lit ("q3.md")), filename := none, distance := 1 }

/-! ## Helper lemmas -/

/-- A chunk list that passes `_validate_chunks` has no chunk below
`min_chunk_size`. -/
theorem validate_chunks_min (cfg : ChunkConfig) (chunks : List Str)
    (h : validate_chunks cfg chunks = true) :
    ∀ c ∈ chunks, cfg.min_chunk_size ≤ c.length := by
  intro c hc
  by_contra hlt
  push_neg at hlt
  have hany : chunks.any (fun c => c.length < cfg.min_chunk_size) = true := by
    rw [List.any_eq_true]
    exact ⟨c, hc, by simpa using hlt⟩
  unfold validate_chunks at h
  rw [if_neg (by rintro rfl; simp at hc)] at h
  rw [if_pos (by simpa using hany)] at h
  cases h

/-- Every chunk emitted by the fallback loop passed its explicit
`len(chunk) >= min_chunk_size` guard. -/
theorem fallback_loop_min (cfg : ChunkConfig) (s : Str) :
    ∀ fuel start c, c ∈ fallback_loop cfg s fuel start → cfg.min_chunk_size ≤ c.length := by
  intro fuel
  induction fuel with
  | zero => intro start c hc; simp [fallback_loop] at hc
  | succ n ih =>
    intro start c hc
    simp only [fallback_loop] at hc
    by_cases hlt : start < s.length
    · rw [if_pos hlt] at hc
      by_cases hcond : py_strip (py_slice s start (fb_end cfg s start)) ≠ [] ∧
          cfg.min_chunk_size ≤ (py_strip (py_slice s start (fb_end cfg s start))).length
      · rw [if_pos hcond] at hc
        rcases List.mem_cons.mp hc with rfl | hmem
        · exact hcond.2
        · exact ih _ _ hmem
      · rw [if_neg hcond] at hc
        exact ih _ _ hc
    · rw [if_neg hlt] at hc
      simp at hc

/-- The start position strictly advances. -/
theorem fallback_next_gt (cfg : ChunkConfig) (s : Str) (start : Nat) :
    start < fallback_next cfg s start :=
  Nat.lt_of_lt_of_le (Nat.lt_succ_self start) (le_max_left _ _)

/-- The fallback loop is independent of the fuel once the fuel covers the
remaining characters: the `while` loop terminates within `length - start`
iterations. -/
theorem fallback_loop_congr (cfg : ChunkConfig) (s : Str) :
    ∀ f1 f2 start, s.length - start ≤ f1 → s.length - start ≤ f2 →
      fallback_loop cfg s f1 start = fallback_loop cfg s f2 start := by
  intro f1
  induction f1 with
  | zero =>
    intro f2 start h1 _
    have hge : s.length ≤ start := by omega
    cases f2 with
    | zero => rfl
    | succ m =>
      simp only [fallback_loop]
      rw [if_neg (by omega)]
  | succ n ih =>
    intro f2 start h1 h2
    by_cases hlt : start < s.length
    · have hnext := fallback_next_gt cfg s start
      cases f2 with
      | zero => omega
      | succ m =>
        simp only [fallback_loop]
        rw [if_pos hlt, if_pos hlt,
          ih m (fallback_next cfg s start) (by omega) (by omega)]
    · cases f2 with
      | zero =>
        simp only [fallback_loop]
        rw [if_neg hlt]
      | succ m =>
        simp only [fallback_loop]
        rw [if_neg hlt, if_neg hlt]

/-- Branch lemma: a whitespace-only document yields no chunks. -/
theorem create_chunks_nil (cfg : ChunkConfig) (text : Str) (h : py_strip text = []) :
    create_chunks cfg text = [] := by
  unfold create_chunks
  rw [if_pos (Or.inr h)]

/-- Branch lemma: a document whose stripped text is nonempty but shorter than
`min_chunk_size` yields the stripped text as sole chunk. -/
theorem create_chunks_short (cfg : ChunkConfig) (text : Str)
    (h1 : py_strip text ≠ []) (h2 : (py_strip text).length < cfg.min_chunk_size) :
    create_chunks cfg text = [py_strip text] := by
  unfold create_chunks
  rw [if_neg, if_pos h2]
  rintro (rfl | he)
  · exact h1 rfl
  · exact h1 he

/-- Branch lemma: on the main path every produced chunk has at least
`min_chunk_size` characters (the sentence path through the validation gate,
the fallback path through its per-chunk guard). -/
theorem create_chunks_min (cfg : ChunkConfig) (text : Str)
    (h : cfg.min_chunk_size ≤ (py_strip text).length) :
    ∀ c ∈ create_chunks cfg text, cfg.min_chunk_size ≤ c.length := by
  intro c hc
  by_cases hnil : text = [] ∨ py_strip text = []
  · unfold create_chunks at hc
    rw [if_pos hnil] at hc
    simp at hc
  · unfold create_chunks at hc
    rw [if_neg hnil, if_neg (Nat.not_lt.mpr h)] at hc
    by_cases hval : validate_chunks cfg
        (sentence_based_chunking cfg (py_strip (collapse_nl3 (clean_text_content text)))) = true
    · rw [if_pos hval] at hc
      exact validate_chunks_min cfg _ hval c hc
    · rw [if_neg hval] at hc
      exact fallback_loop_min cfg _ _ _ c hc

/-- The deduplicated list has pairwise-distinct titles and avoids the seen
set. -/
theorem dedup_aux_spec (docs : List Hit) :
    ∀ seen, (dedup_aux seen docs).Pairwise (fun a b => a.title ≠ b.title) ∧
      ∀ d ∈ dedup_aux seen docs, d.title ∉ seen := by
  induction docs with
  | nil => intro seen; simp [dedup_aux]
  | cons d ds ih =>
    intro seen
    by_cases h : d.title ∈ seen
    · simpa [dedup_aux, h] using ih seen
    · have h2 := ih (d.title :: seen)
      rw [dedup_aux, if_neg h]
      constructor
      · refine List.Pairwise.cons (fun b hb heq => ?_) h2.1
        exact h2.2 b hb (heq ▸ List.mem_cons_self _ _)
      · intro x hx
        rcases List.mem_cons.mp hx with rfl | hmem
        · exact h
        · exact fun hc => h2.2 x hmem (List.mem_cons_of_mem _ hc)

/-- The chat model is not registered in `MODEL_ENCODINGS`, so its token
counts always take the approximate path. -/
theorem chat_model_unregistered : chat_model ∉ MODEL_ENCODINGS := by decide

/-- The two formatted pet hits are already in descending score order. -/
theorem pet_sorted : score_ge (format_neighbor pet1) (format_neighbor pet2) := by
  show (format_neighbor pet2).score ≤ (format_neighbor pet1).score
  show (1 : ℚ) - (2/10 : ℚ) ≤ (1 : ℚ) - (1/10 : ℚ)
  norm_num

/-- Evaluation of `search` on the two-neighbor store: both same-titled hits
are returned, in score order. -/
theorem search_petStore_eval :
    search petStore 5 = [format_neighbor pet1, format_neighbor pet2] := by
  show (List.orderedInsert score_ge (format_neighbor pet1)
      (List.orderedInsert score_ge (format_neighbor pet2) [])).take 5
    = [format_neighbor pet1, format_neighbor pet2]
  rw [List.orderedInsert_nil, List.orderedInsert_of_le score_ge _ pet_sorted]
  rfl

/-- The distances of the pet store are normalized. -/
theorem petStore_distances :
    ∀ n ∈ petStore (min (5 * 2) 20), 0 ≤ n.distance ∧ n.distance ≤ 1 := by
  intro n hn
  rcases List.mem_cons.mp hn with rfl | hn
  · constructor <;> norm_num [pet1]
  · rcases List.mem_cons.mp hn with rfl | hn
    · constructor <;> norm_num [pet2]
    · simp at hn

/-- Filtering twice with the same predicate is filtering once. -/
theorem filter_self_idem {α : Type} (p : α → Bool) (l : List α) :
    (l.filter p).filter p = l.filter p := by
  induction l with
  | nil => rfl
  | cons a t ih =>
    by_cases h : p a
    · simp [List.filter_cons, h, ih]
    · simp [List.filter_cons, h, ih]

/-! ## Claims -/

/-- C1 (corrected).  For every store and limit, `VectorEngine.search` returns
at most `limit` hits, each hit is the formatting of a returned neighbor with
`score = 1 - distance`, scores lie in [0,1] whenever the store's distances
are normalized to [0,1], and the hits are sorted by score descending.  The
claim's deduplication clause is false of `search` (see
`search_shared_title_cx`): two stored chunks with the same title can both be
returned.  Title deduplication happens downstream in
`ChatEngine.get_response`, whose `dedup_by_title` output has
pairwise-distinct titles (final conjunct). -/
theorem search_ranked (store : Nat → List Neighbor) (limit : Nat)
    (hd : ∀ n ∈ store (min (limit * 2) 20), 0 ≤ n.distance ∧ n.distance ≤ 1) :
    (search store limit).length ≤ limit ∧
    (∀ h ∈ search store limit,
      ∃ n ∈ store (min (limit * 2) 20), h = format_neighbor n ∧ h.score = 1 - n.distance) ∧
    (∀ h ∈ search store limit, 0 ≤ h.score ∧ h.score ≤ 1) ∧
    (search store limit).Sorted score_ge ∧
    (∀ docs : List Hit, (dedup_by_title docs).Pairwise (fun a b => a.title ≠ b.title)) := by
  have hmem : ∀ h ∈ search store limit,
      ∃ n ∈ store (min (limit * 2) 20), h = format_neighbor n ∧ h.score = 1 - n.distance := by
    intro h hh
    unfold search at hh
    have h1 : h ∈ ((store (min (limit * 2) 20)).map format_neighbor).insertionSort score_ge :=
      List.mem_of_mem_take hh
    have h2 : h ∈ (store (min (limit * 2) 20)).map format_neighbor :=
      (List.perm_insertionSort score_ge _).mem_iff.mp h1
    rcases List.mem_map.mp h2 with ⟨n, hn, rfl⟩
    exact ⟨n, hn, rfl, rfl⟩
  refine ⟨?_, hmem, ?_, ?_, ?_⟩
  · unfold search
    rw [List.length_take]
    exact min_le_left _ _
  · intro h hh
    rcases hmem h hh with ⟨n, hn, rfl, hs⟩
    rcases hd n hn with ⟨h0, h1⟩
    constructor
    · rw [hs]; linarith
    · rw [hs]; linarith
  · unfold search
    exact (List.sorted_insertionSort score_ge _).sublist (List.take_sublist _ _)
  · intro docs
    exact (dedup_aux_spec docs []).1

/-- Witness for `search_ranked` at the concrete two-neighbor store. -/
theorem search_ranked_witness :
    (search petStore 5).length ≤ 5 ∧ (search petStore 5).Sorted score_ge := by
  have h := search_ranked petStore 5 petStore_distances
  exact ⟨h.1, h.2.2.2.1⟩

/-- C1 counterexample.  Two stored chunks titled "Pet Policy" with different
scores: `search` returns both of them, refuting "no two returned hits share a
title — only the higher-scoring one is returned". -/
theorem search_shared_title_cx :
    (search petStore 5).map Hit.title = [lit ("Pet Policy"), lit ("Pet Policy")] ∧
    (search petStore 5).length = 2 := by
  rw [search_petStore_eval]
  exact ⟨rfl, rfl⟩

/-- C2 (corrected).  Every produced chunk has at least `min_chunk_size`
characters, and a document whose stripped text is shorter than
`min_chunk_size` yields exactly that stripped text as sole chunk (no chunk at
all when the document is whitespace-only).  The claimed `max_chunk_size`
upper bound is false: neither the sentence path nor `_validate_chunks`
checks it (see `chunk_exceeds_max_cx`). -/
theorem chunk_size_invariant (cfg : ChunkConfig) (text : Str) :
    (py_strip text = [] → create_chunks cfg text = []) ∧
    (py_strip text ≠ [] → (py_strip text).length < cfg.min_chunk_size →
      create_chunks cfg text = [py_strip text]) ∧
    (cfg.min_chunk_size ≤ (py_strip text).length →
      ∀ c ∈ create_chunks cfg text, cfg.min_chunk_size ≤ c.length) :=
  ⟨create_chunks_nil cfg text, create_chunks_short cfg text, create_chunks_min cfg text⟩

/-- Witness for `chunk_size_invariant` on the short document "abc". -/
theorem chunk_size_invariant_witness :
    create_chunks defaultConfig (lit ("abc")) = [py_strip (lit ("abc"))] :=
  (chunk_size_invariant defaultConfig (lit ("abc"))).2.1 (by decide) (by decide)

/-- C2 counterexample.  Under a configuration that passes
`_validate_chunk_config`, a 150-character document with no sentence
terminator is a single "sentence"; it passes `_validate_chunks` (which never
checks `max_chunk_size`) and is returned as one chunk of 150 > 120
characters.  (The same happens with the default configuration on a
2001-character terminator-free document.) -/
theorem chunk_exceeds_max_cx :
    validate_chunk_config smallConfig = true ∧
    ∃ c ∈ create_chunks smallConfig (List.replicate 150 'a'),
      smallConfig.max_chunk_size < c.length := by decide

/-- C3 (confirmed).  When the Generator call raises, `get_response` returns
(rather than propagates): the answer is the fallback synthesis from the
deduplicated retrieval hits, the confidence is exactly 0.5, and exactly one
cost record is emitted, whose input tokens are the word-count estimate of the
query text alone (independent of the encoder and of the retrieved context)
and whose output tokens are zero. -/
theorem generator_failure_fallback (enc : Str → Nat) (store : Nat → List Neighbor)
    (e user_query request_id : Str) (now : Nat) (ptime : ℚ) (uid sid : Option Str) :
    (get_response enc store (Except.error e) user_query request_id now ptime uid sid).answer
      = create_fallback_response user_query (dedup_by_title (search store 5)) ∧
    (get_response enc store (Except.error e) user_query request_id now ptime uid sid).confidence
      = 1/2 ∧
    (get_response enc store (Except.error e) user_query request_id now ptime uid sid).tracked.length
      = 1 ∧
    ∀ rec ∈ (get_response enc store (Except.error e) user_query request_id now ptime uid sid).tracked,
      rec.input_tokens = approximate_token_count user_query ∧
      rec.output_tokens = 0 ∧ rec.total_tokens = approximate_token_count user_query := by
  have hct : count_tokens enc user_query chat_model = approximate_token_count user_query := by
    unfold count_tokens
    rw [if_neg chat_model_unregistered]
  have ht : (get_response enc store (Except.error e) user_query request_id now ptime uid sid).tracked
      = [mk_cost_breakdown request_id now (count_tokens enc user_query chat_model) 0
          (count_tokens enc user_query chat_model) user_query (lit ("FAILED")) ptime uid sid] := rfl
  refine ⟨rfl, rfl, rfl, ?_⟩
  intro rec hrec
  rw [ht, List.mem_singleton] at hrec
  subst hrec
  refine ⟨?_, rfl, ?_⟩
  · show count_tokens enc user_query chat_model = approximate_token_count user_query
    exact hct
  · show count_tokens enc user_query chat_model = approximate_token_count user_query
    exact hct

/-- C4 (corrected).  For hit lists whose scores lie in [0,1] (the invariant
of `RetrievalHit` in the data model), the confidence is the mean of the
top-3 scores, lies in [0,1], and is 0.0 when there are no hits.  The converse
— confidence 0.0 implies zero hits — is false: a hit of score 0 (cosine
distance exactly 1) also gives 0.0 (see `confidence_zero_nonempty_cx`). -/
theorem confidence_top3_mean (documents : List Hit)
    (hs : ∀ d ∈ documents, 0 ≤ d.score ∧ d.score ≤ 1) :
    calculate_confidence documents
      = (if documents = [] then 0
         else ((documents.take 3).map Hit.score).sum / ((documents.take 3).map Hit.score).length) ∧
    0 ≤ calculate_confidence documents ∧ calculate_confidence documents ≤ 1 ∧
    (documents = [] → calculate_confidence documents = 0) := by
  have hb : 0 ≤ calculate_confidence documents ∧ calculate_confidence documents ≤ 1 := by
    by_cases hd : documents = []
    · simp [calculate_confidence, hd]
    · have hmem : ∀ x ∈ (documents.take 3).map Hit.score, 0 ≤ x ∧ x ≤ 1 := by
        intro x hx
        rcases List.mem_map.mp hx with ⟨d, hdm, rfl⟩
        exact hs d (List.mem_of_mem_take hdm)
      have hlen : 0 < ((documents.take 3).map Hit.score).length := by
        rw [List.length_map, List.length_take]
        rcases documents with _ | ⟨a, l⟩
        · exact absurd rfl hd
        · simp
      unfold calculate_confidence
      rw [if_neg hd]
      constructor
      · exact div_nonneg (List.sum_nonneg fun x hx => (hmem x hx).1) (by positivity)
      · rw [div_le_one (by exact_mod_cast hlen)]
        calc ((documents.take 3).map Hit.score).sum
            ≤ ((documents.take 3).map Hit.score).length • (1 : ℚ) :=
              List.sum_le_card_nsmul _ 1 (fun x hx => (hmem x hx).2)
          _ = ((documents.take 3).map Hit.score).length := by simp
  exact ⟨rfl, hb.1, hb.2, fun h => by simp [calculate_confidence, h]⟩

/-- Witness for `confidence_top3_mean` at the concrete retrieval result. -/
theorem confidence_top3_mean_witness :
    0 ≤ calculate_confidence (search petStore 5) ∧
    calculate_confidence (search petStore 5) ≤ 1 := by
  have hs : ∀ d ∈ search petStore 5, 0 ≤ d.score ∧ d.score ≤ 1 := by
    rw [search_petStore_eval]
    intro d hd
    rcases List.mem_cons.mp hd with rfl | hd
    · constructor
      · show (0 : ℚ) ≤ 1 - (1/10 : ℚ)
        norm_num
      · show (1 : ℚ) - (1/10 : ℚ) ≤ 1
        norm_num
    · rcases List.mem_cons.mp hd with rfl | hd
      · constructor
        · show (0 : ℚ) ≤ 1 - (2/10 : ℚ)
          norm_num
        · show (1 : ℚ) - (2/10 : ℚ) ≤ 1
          norm_num
      · simp at hd
  have h := confidence_top3_mean (search petStore 5) hs
  exact ⟨h.2.1, h.2.2.1⟩

/-- C4 counterexample.  A single hit at cosine distance 1 has score 0, and
the confidence over the nonempty list is 0.0: confidence 0.0 does not imply
zero hits. -/
theorem confidence_zero_nonempty_cx :
    calculate_confidence [format_neighbor orthoNeighbor] = 0 ∧
    [format_neighbor orthoNeighbor] ≠ ([] : List Hit) := by
  refine ⟨?_, by simp⟩
  have hsc : (format_neighbor orthoNeighbor).score = 0 := by
    show (1 : ℚ) - 1 = 0
    norm_num
  simp [calculate_confidence, hsc]

/-- C5 (confirmed).  The fallback chunker advances `start` to
`max(start + 1, end - overlap)`, which strictly exceeds `start` for every
configuration (including `overlap ≥ chunk_size - 1`); consequently the loop
is fuel-insensitive beyond `length - start` steps, i.e. the `while` loop
terminates within `length - start` iterations on every finite input. -/
theorem fallback_progress_and_termination (cfg : ChunkConfig) (s : Str) (start fuel : Nat)
    (h : s.length - start ≤ fuel) :
    start < fallback_next cfg s start ∧
    fallback_loop cfg s fuel start = fallback_loop cfg s (s.length - start) start :=
  ⟨fallback_next_gt cfg s start, fallback_loop_congr cfg s fuel (s.length - start) start h le_rfl⟩

/-- Witness for `fallback_progress_and_termination` on a concrete input. -/
theorem fallback_progress_and_termination_witness :
    0 < fallback_next defaultConfig (lit ("hello")) 0 ∧
    fallback_loop defaultConfig (lit ("hello")) 7 0 =
      fallback_loop defaultConfig (lit ("hello")) ((lit ("hello")).length - 0) 0 :=
  fallback_progress_and_termination defaultConfig (lit ("hello")) 0 7 (by decide)

/-- C6 (corrected).  A document whose stripped text is nonempty and shorter
than `min_chunk_size` yields exactly one chunk, equal to the
whitespace-stripped document (not the unchanged document, and a
whitespace-only short document yields no chunk at all — see
`whitespace_doc_no_chunk_cx`). -/
theorem short_doc_single_chunk (cfg : ChunkConfig) (text : Str)
    (h1 : py_strip text ≠ []) (h2 : (py_strip text).length < cfg.min_chunk_size) :
    create_chunks cfg text = [py_strip text] :=
  create_chunks_short cfg text h1 h2

/-- Witness for `short_doc_single_chunk` on the two-character document
"hi". -/
theorem short_doc_single_chunk_witness :
    create_chunks defaultConfig (lit ("hi")) = [py_strip (lit ("hi"))] :=
  short_doc_single_chunk defaultConfig (lit ("hi")) (by decide) (by decide)

/-- C6 counterexample.  The whitespace-only document " " is shorter than
`min_chunk_size` but yields zero chunks, not one. -/
theorem whitespace_doc_no_chunk_cx :
    (create_chunks defaultConfig (lit (" "))).length ≠ 1 := by decide

/-- C7 (code bug).  The claim (and the per-line loop in the source) wants
exactly the lines of alphabetic ratio < 0.3 dropped.  But
`re.sub(r'\s+', ' ', ...)` replaces every newline with a space before the
text is split on newlines, so the ratio filter sees the whole text as a
single line.  First input: the fully-alphabetic line "hi" (ratio 1.0) is
dropped because the merged line "hi 1111111111" has ratio 2/13 < 0.3.
Second input: the all-digit line "12345" (ratio 0.0) is retained because the
merged line has ratio 18/27 > 0.3. -/
theorem clean_line_filter_behavior :
    clean_text_content (lit ("hi\n1111111111")) = [] ∧
    clean_text_content (lit ("hello world good text\n12345"))
      = lit ("hello world good text 12345") := by decide

/-- C8 (corrected).  On a window with zero records, `get_cost_summary`
returns (never raises) a payload with zero totals and an empty daily
breakdown — but the payload carries no explicit "no data" indicator: its key
set is exactly `cost_summary_keys` (see `summary_no_indicator_cx`). -/
theorem empty_window_summary (db : List CostBreakdown) (days now : Nat)
    (h : window_records db days now = []) :
    (get_cost_summary db days now).total_summary.total_requests = 0 ∧
    (get_cost_summary db days now).total_summary.total_cost = 0 ∧
    (get_cost_summary db days now).total_summary.total_tokens = 0 ∧
    (get_cost_summary db days now).total_summary.avg_processing_time = 0 ∧
    (get_cost_summary db days now).daily_breakdown = [] := by
  simp [get_cost_summary, h, distinct_days_desc, avg_or_zero]

/-- Witness for `empty_window_summary` on the empty store. -/
theorem empty_window_summary_witness :
    (get_cost_summary [] 1 0).total_summary.total_requests = 0 ∧
    (get_cost_summary [] 1 0).total_summary.total_cost = 0 := by
  have h := empty_window_summary [] 1 0 rfl
  exact ⟨h.1, h.2.1⟩

/-- C8 counterexample.  The payload returned for an empty store has zero
totals, but none of its keys is a "no data" indicator — the key set of the
returned dictionary literal contains no such flag. -/
theorem summary_no_indicator_cx :
    lit ("no_data") ∉ cost_summary_keys ∧ lit ("note") ∉ cost_summary_keys ∧
    lit ("message") ∉ cost_summary_keys ∧ lit ("no data") ∉ cost_summary_keys ∧
    (get_cost_summary [] 1 0).total_summary.total_requests = 0 ∧
    (get_cost_summary [] 1 0).total_summary.total_cost = 0 ∧
    (get_cost_summary [] 1 0).daily_breakdown = [] := by decide

/-- C9 (confirmed).  Tracking the same record twice is the same as tracking
it once (`INSERT OR REPLACE` keyed on the `request_id` primary key), so every
aggregate over every window is unchanged by the second insert. -/
theorem track_request_idempotent (db : List CostBreakdown) (r : CostBreakdown) :
    track_request (track_request db r) r = track_request db r ∧
    ∀ days now, get_cost_summary (track_request (track_request db r) r) days now
      = get_cost_summary (track_request db r) days now := by
  have key : track_request (track_request db r) r = track_request db r := by
    unfold track_request
    rw [List.filter_append, filter_self_idem]
    simp
  exact ⟨key, fun days now => by rw [key]⟩

/-- C10 (confirmed).  When the Generator call raises, the response mapping
carries the "error" key with the exception's message (`error = some e`); on
the success path the key is absent (`error = none`). -/
theorem error_key_in_payload (enc : Str → Nat) (store : Nat → List Neighbor)
    (e : Str) (resp : GenResponse) (user_query request_id : Str) (now : Nat)
    (ptime : ℚ) (uid sid : Option Str) :
    (get_response enc store (Except.error e) user_query request_id now ptime uid sid).error
      = some e ∧
    (get_response enc store (Except.ok resp) user_query request_id now ptime uid sid).error
      = none :=
  ⟨rfl, rfl⟩

end RagSpec
